import Mathlib

/-!
Shallow embedding of the dw-image web component (src/dw-image.js).

The component renders an inline image and, on click, an overlay with a
zoomed image, a fullscreen toggle button and a close button.  Its reactive
fields are the configuration properties (src, title, auto, loading,
disableZoom, zoomSrc) and two internal flags: the field named _isZoomMode
in the source (true while the zoom overlay is shown) and the field named
_fullScreen in the source (toggled by the fullscreen buttons and by the
platform fullscreenchange notification).

Stateful event handlers are embedded as explicit state-passing functions,
one per handler in the source, and a single step function dispatches an
external input to its handler and then applies the Lit updated hook, which
in the source reacts to a change of the fullscreen flag.  Events dispatched
on window (CustomEvent in the source) are collected in an ordered list, as
are calls into the platform fullscreen API.
-/

namespace DwImage

/-- One element of a click propagation path, as inspected by the handler
named onClick in the source: its tagName and its id attribute. -/
structure PathEl where
  tagName : String
  id : String
deriving DecidableEq, Repr

/-- The reactive fields of the component.  The two Bool flags keep the
source names (with the leading underscores dropped where noted): isZoomMode
embeds the source field _isZoomMode and fullScreen embeds _fullScreen.
The constructor of the source sets auto to the string height and loading
to the string lazy; both flags start falsy (false). -/
structure State where
  src : String
  title : Option String
  auto : String
  loading : String
  disableZoom : Bool
  zoomSrc : Option String
  isZoomMode : Bool
  fullScreen : Bool
deriving DecidableEq, Repr

/-- CustomEvents the component dispatches on window: dw-image-opened with
detail image, dw-image-closed with detail image and ux, and
dw-image-fullscreen with detail image and enabled. -/
inductive Event where
  | opened (image : String)
  | closed (image : String) (ux : String)
  | fullscreen (image : String) (enabled : Bool)
deriving DecidableEq, Repr

/-- Calls the component makes into the platform fullscreen API:
requestFullscreen on the overlay element, and exitFullscreen on the
document. -/
inductive FsRequest where
  | requestFullscreen
  | exitFullscreen
deriving DecidableEq, Repr

/-- External inputs driving the component, one per wired handler in the
source: the click handler of the inline img element (_setZoomMode), the
click listener added on the component itself (the handler named onClick in
the source, with the composedPath of the click), the document keydown
listener (the handler named keydown in the source, reading the fields
keycode and key of the event), a click on whichever fullscreen icon button
the overlay currently renders, a click on the close icon button
(_closeZoomImage), the firing of the 100 ms timeout that _closeZoomImage
schedules, and the window fullscreenchange notification (carrying whether
document.fullscreenElement is now set). -/
inductive Input where
  | inlineImgClick
  | componentClick (paths : List PathEl)
  | keydown (keycode : Option Nat) (key : Option String)
  | fullScreenToggleClick
  | closeBtnClick
  | closeTimeout
  | fullscreenchange (fullscreenElement : Bool)
deriving DecidableEq, Repr

/-- The predicate of the loop body in the handler named onClick in the
source: the element is the img, or one of the three icon buttons,
identified by tag name and id exactly as the source compares them. -/
def isZoomUIEl (el : PathEl) : Bool :=
  el.tagName == "IMG" ||
  (el.tagName == "DW-ICON-BUTTON" && el.id == "close-btn") ||
  (el.tagName == "DW-ICON-BUTTON" && el.id == "full-screen") ||
  (el.tagName == "DW-ICON-BUTTON" && el.id == "exit-full-screen")

/-- The outsideImageClick flag computed in the handler named onClick in the
source: initialized to true and set to false by the forEach body as soon as
some path element satisfies isZoomUIEl. -/
def outsideImageClick (paths : List PathEl) : Bool :=
  !(paths.any isZoomUIEl)

/-- The guard of the getter _zoomImageTemplate in the source: the template
(overlay, buttons and zoomed img) is rendered only when isZoomMode holds
and disableZoom does not. -/
def zoomTemplateRendered (s : State) : Bool :=
  s.isZoomMode && !s.disableZoom

/-- The src binding of the zoomed img in _zoomImageTemplate: the JavaScript
expression this.zoomSrc or-else this.src, where a missing (undefined) or
empty zoomSrc is falsy and falls through to src. -/
def zoomSrcOrSrc (s : State) : String :=
  match s.zoomSrc with
  | some z => if z == "" then s.src else z
  | none => s.src

/-- The src of the zoomed img as actually rendered: none when
_zoomImageTemplate returns nothing (guard failed), otherwise the
zoomSrc-or-src fallback. -/
def zoomImageSrc (s : State) : Option String :=
  if zoomTemplateRendered s then some (zoomSrcOrSrc s) else none

/-- The method _requestFullScreen of the source: issues requestFullscreen
on the overlay element only when the fullScreen flag is set and
document.fullscreenElement (here the argument fsEl) is not. -/
def requestFullScreenCalls (fsEl : Bool) (s : State) : List FsRequest :=
  if s.fullScreen && !fsEl then [FsRequest.requestFullscreen] else []

/-- The method _exitFullScreen of the source: issues exitFullscreen on the
document only when the fullScreen flag is cleared and
document.fullscreenElement (here the argument fsEl) is set. -/
def exitFullScreenCalls (fsEl : Bool) (s : State) : List FsRequest :=
  if !s.fullScreen && fsEl then [FsRequest.exitFullscreen] else []

/-- The Lit updated hook of the source.  changedProperties records the
fullScreen flag exactly when its value differs from the previous one, so
the guard is embedded as a disequality of the old and new flag, conjoined
with the isZoomMode test the source makes on the current (new) state.  When
the guard holds and the flag is now set, the hook calls _requestFullScreen
and then dispatches dw-image-fullscreen with enabled true; when the guard
holds and the flag is now cleared, it calls _exitFullScreen and then
dispatches dw-image-fullscreen with enabled false. -/
def updatedHook (fsEl : Bool) (old new : State) : List Event × List FsRequest :=
  if (old.fullScreen != new.fullScreen) && new.isZoomMode then
    if new.fullScreen then
      ([Event.fullscreen new.src true], requestFullScreenCalls fsEl new)
    else
      ([Event.fullscreen new.src false], exitFullScreenCalls fsEl new)
  else ([], [])

/-- The method _setZoomMode of the source: a click on the inline img does
nothing when disableZoom is set, otherwise sets isZoomMode and dispatches
dw-image-opened with the image src. -/
def setZoomMode (s : State) : State × List Event :=
  if s.disableZoom then (s, [])
  else ({ s with isZoomMode := true }, [Event.opened s.src])

/-- The component click listener of the source (named onClick there):
returns immediately while the fullScreen flag is set; otherwise, when every
element of the propagation path fails isZoomUIEl, clears isZoomMode and
dispatches dw-image-closed with ux OVERLAY_CLICK; otherwise does nothing. -/
def onClickHandler (paths : List PathEl) (s : State) : State × List Event :=
  if s.fullScreen then (s, [])
  else if outsideImageClick paths then
    ({ s with isZoomMode := false }, [Event.closed s.src "OVERLAY_CLICK"])
  else (s, [])

/-- The document keydown listener of the source (named keydown there): on
keycode 27 or key Escape or Esc, returns when isZoomMode is not set,
otherwise clears isZoomMode and dispatches dw-image-closed with ux ESC.
The source reads the event field spelled keycode, so the embedding takes it
as given rather than the standard keyCode. -/
def keydownHandler (keycode : Option Nat) (key : Option String) (s : State) :
    State × List Event :=
  if keycode == some 27 || key == some "Escape" || key == some "Esc" then
    if !s.isZoomMode then (s, [])
    else ({ s with isZoomMode := false }, [Event.closed s.src "ESC"])
  else (s, [])

/-- The click handlers of the two fullscreen icon buttons in
_zoomImageTemplate: the exit-full-screen button (rendered while the flag is
set) assigns false to the flag, and the full-screen button (rendered
otherwise) assigns true. -/
def fullScreenToggle (s : State) : State :=
  if s.fullScreen then { s with fullScreen := false }
  else { s with fullScreen := true }

/-- The synchronous part of _closeZoomImage in the source: clears the
fullScreen flag when set, and schedules a 100 ms timeout (returned as the
delay of the deferred close); the isZoomMode flag and the dw-image-closed
dispatch are deferred to that timeout. -/
def closeZoomImageSync (s : State) : State × Option Nat :=
  ((if s.fullScreen then { s with fullScreen := false } else s), some 100)

/-- The timeout callback scheduled by _closeZoomImage: clears isZoomMode
and dispatches dw-image-closed with ux CLOSE_BUTTON. -/
def closeZoomImageTimeout (s : State) : State × List Event :=
  ({ s with isZoomMode := false }, [Event.closed s.src "CLOSE_BUTTON"])

/-- The window fullscreenchange listener of the source (named
fullScreenChange there): sets the fullScreen flag to true when
document.fullscreenElement is set, to false otherwise. -/
def fullScreenChangeHandler (fullscreenElement : Bool) (s : State) : State :=
  if fullscreenElement then { s with fullScreen := true }
  else { s with fullScreen := false }

/-- Result of one event-loop step: the new state, the CustomEvents
dispatched on window in order, the platform fullscreen API calls made, and
the delay of a deferred close when one was scheduled by this step. -/
structure StepOut where
  state : State
  events : List Event
  requests : List FsRequest
  scheduled : Option Nat
deriving DecidableEq, Repr

/-- One event-loop step of the component.  The handler for the input runs
first (its window dispatches happen synchronously inside the handler), then
the Lit updated hook runs on the resulting property change, appending its
dispatch and its platform call.  fsEl is the truthiness of
document.fullscreenElement while the step runs; for the fullscreenchange
input the value carried by the notification is used, since it reports the
new document state.  Clicks on the overlay buttons exist only while
_zoomImageTemplate is rendered, so those inputs are guarded by
zoomTemplateRendered. -/
def step (fsEl : Bool) (s : State) (i : Input) : StepOut :=
  match i with
  | Input.inlineImgClick =>
      let (s2, evs) := setZoomMode s
      let (uev, ureq) := updatedHook fsEl s s2
      { state := s2, events := evs ++ uev, requests := ureq, scheduled := none }
  | Input.componentClick paths =>
      let (s2, evs) := onClickHandler paths s
      let (uev, ureq) := updatedHook fsEl s s2
      { state := s2, events := evs ++ uev, requests := ureq, scheduled := none }
  | Input.keydown keycode key =>
      let (s2, evs) := keydownHandler keycode key s
      let (uev, ureq) := updatedHook fsEl s s2
      { state := s2, events := evs ++ uev, requests := ureq, scheduled := none }
  | Input.fullScreenToggleClick =>
      if zoomTemplateRendered s then
        let s2 := fullScreenToggle s
        let (uev, ureq) := updatedHook fsEl s s2
        { state := s2, events := uev, requests := ureq, scheduled := none }
      else { state := s, events := [], requests := [], scheduled := none }
  | Input.closeBtnClick =>
      if zoomTemplateRendered s then
        let (s2, d) := closeZoomImageSync s
        let (uev, ureq) := updatedHook fsEl s s2
        { state := s2, events := uev, requests := ureq, scheduled := d }
      else { state := s, events := [], requests := [], scheduled := none }
  | Input.closeTimeout =>
      let (s2, evs) := closeZoomImageTimeout s
      let (uev, ureq) := updatedHook fsEl s s2
      { state := s2, events := evs ++ uev, requests := ureq, scheduled := none }
  | Input.fullscreenchange b =>
      let s2 := fullScreenChangeHandler b s
      let (uev, ureq) := updatedHook b s s2
      { state := s2, events := uev, requests := ureq, scheduled := none }

/-- Run a list of inputs from a state, threading only the state (fsEl held
fixed). -/
def run (fsEl : Bool) : State → List Input → State
  | s, [] => s
  | s, i :: is => run fsEl (step fsEl s i).state is

/-- The state of a freshly constructed component: the constructor of the
source sets auto to height and loading to lazy; isZoomMode and fullScreen
are unset (falsy). -/
def initState (src : String) (title : Option String) (disableZoom : Bool)
    (zoomSrc : Option String) : State :=
  { src := src, title := title, auto := "height", loading := "lazy",
    disableZoom := disableZoom, zoomSrc := zoomSrc,
    isZoomMode := false, fullScreen := false }

/-- A concrete freshly attached component used to instantiate theorems. -/
def sampleClosed : State := initState "a.jpg" none false (some "a_hi.jpg")

/-- The sample component after the zoom overlay opened (Zoomed Windowed). -/
def sampleZoomed : State := { sampleClosed with isZoomMode := true }

/-- The sample component with the fullscreen flag set (Zoomed Fullscreen). -/
def sampleFull : State := { sampleZoomed with fullScreen := true }

/-- The sample component with zoom disabled. -/
def sampleDisabled : State := { sampleClosed with disableZoom := true }

/-- The sample zoomed component without a zoomSrc. -/
def sampleZoomedNoZoomSrc : State := { sampleZoomed with zoomSrc := none }

/-- The keydown guard of the source holds whenever the event carries
keycode 27 or the key Escape or Esc. -/
theorem keydown_esc_cond {keycode : Option Nat} {key : Option String}
    (hesc : keycode = some 27 ∨ key = some "Escape" ∨ key = some "Esc") :
    (keycode == some 27 || key == some "Escape" || key == some "Esc") = true := by
  rcases hesc with h | h | h <;> simp [h]

/-- The outsideImageClick flag is true exactly when no element of the path
satisfies isZoomUIEl. -/
theorem outsideImageClick_eq_true {paths : List PathEl} :
    outsideImageClick paths = true ↔ ∀ el ∈ paths, isZoomUIEl el = false := by
  simp [outsideImageClick, List.any_eq_true]

/-- Claim C1 counterexample: pressing Escape while Zoomed with the
fullscreen flag set is not suppressed.  From the concrete Zoomed
Fullscreen state, the keydown handler changes the state (clearing the zoom
flag) and emits a closed notification with ux ESC, because the handler of
the source checks only the zoom flag, never the fullscreen flag. -/
theorem C1_counterexample :
    (step false sampleFull (Input.keydown none (some "Escape"))).state ≠ sampleFull ∧
    (step false sampleFull (Input.keydown none (some "Escape"))).events ≠ [] ∧
    (step false sampleFull (Input.keydown none (some "Escape"))).state.isZoomMode = false ∧
    (step false sampleFull (Input.keydown none (some "Escape"))).events
        = [Event.closed "a.jpg" "ESC"] := by
  decide

/-- Claim C1 (amended): pressing Escape while Zoomed Fullscreen is handled
exactly as while Windowed — the component transitions to Closed and emits
one closed notification with reason ESC; the fullscreen flag is left set
and no exit-fullscreen platform call is made. -/
theorem C1_escape_not_suppressed (fsEl : Bool) (s : State)
    (keycode : Option Nat) (key : Option String)
    (hesc : keycode = some 27 ∨ key = some "Escape" ∨ key = some "Esc")
    (hzoom : s.isZoomMode = true) (hfs : s.fullScreen = true) :
    (step fsEl s (Input.keydown keycode key)).state
        = { s with isZoomMode := false } ∧
    (step fsEl s (Input.keydown keycode key)).events
        = [Event.closed s.src "ESC"] ∧
    (step fsEl s (Input.keydown keycode key)).state.fullScreen = true ∧
    (step fsEl s (Input.keydown keycode key)).requests = [] := by
  simp [step, keydownHandler, updatedHook, keydown_esc_cond hesc, hzoom, hfs]

/-- Claim C1 witness: the amended theorem applied at the concrete Zoomed
Fullscreen sample state. -/
theorem C1_witness :
    (step false sampleFull (Input.keydown none (some "Escape"))).state
        = { sampleFull with isZoomMode := false } ∧
    (step false sampleFull (Input.keydown none (some "Escape"))).events
        = [Event.closed sampleFull.src "ESC"] ∧
    (step false sampleFull (Input.keydown none (some "Escape"))).state.fullScreen = true ∧
    (step false sampleFull (Input.keydown none (some "Escape"))).requests = [] :=
  C1_escape_not_suppressed false sampleFull none (some "Escape")
    (Or.inr (Or.inl rfl)) rfl rfl

/-- Claim C2 counterexample: a reachable trace breaking the invariant.
Starting from a fresh component, open the overlay, click the fullscreen
button, then press Escape: the resulting state is Closed (zoom flag
cleared) with the fullscreen flag still set, so the Escape transition back
to Closed did not clear the fullscreen flag. -/
theorem C2_counterexample :
    (run false (initState "a.jpg" none false (some "a_hi.jpg"))
        [Input.inlineImgClick, Input.fullScreenToggleClick,
         Input.keydown none (some "Escape")]).isZoomMode = false ∧
    (run false (initState "a.jpg" none false (some "a_hi.jpg"))
        [Input.inlineImgClick, Input.fullScreenToggleClick,
         Input.keydown none (some "Escape")]).fullScreen = true := by
  decide

/-- Claim C2 (amended): the fullscreen-toggle click can set the fullscreen
flag only while the overlay is rendered (hence Zoomed), and the
close-control click clears the flag; but the platform fullscreenchange
notification sets the flag regardless of ViewState, the outside-click
handler never changes the flag (it transitions to Closed only when the flag
is already false), and the Escape transition to Closed leaves the flag
unchanged, so Closed with the fullscreen flag set is reachable. -/
theorem C2_fullscreen_flag_invariants (fsEl : Bool) (s : State)
    (paths : List PathEl) (keycode : Option Nat) (key : Option String) :
    (s.fullScreen = false →
      (step fsEl s Input.fullScreenToggleClick).state.fullScreen = true →
      s.isZoomMode = true) ∧
    ((step fsEl s (Input.fullscreenchange true)).state.fullScreen = true) ∧
    (zoomTemplateRendered s = true →
      (step fsEl s Input.closeBtnClick).state.fullScreen = false) ∧
    ((step fsEl s (Input.componentClick paths)).state.fullScreen
        = s.fullScreen) ∧
    ((step fsEl s (Input.keydown keycode key)).state.fullScreen
        = s.fullScreen) := by
  refine ⟨?_, ?_, ?_, ?_, ?_⟩
  · intro hfs htoggle
    by_cases hr : zoomTemplateRendered s = true
    · simp [zoomTemplateRendered] at hr
      exact hr.1
    · simp at hr
      simp [step, hr] at htoggle
      simp [hfs] at htoggle
  · simp [step, fullScreenChangeHandler]
  · intro hr
    by_cases hfs : s.fullScreen = true
    · simp [step, hr, closeZoomImageSync, hfs]
    · simp at hfs
      simp [step, hr, closeZoomImageSync, hfs]
  · by_cases hfs : s.fullScreen = true
    · simp [step, onClickHandler, hfs]
    · simp at hfs
      by_cases ho : outsideImageClick paths = true
      · simp [step, onClickHandler, hfs, ho, updatedHook]
      · simp at ho
        simp [step, onClickHandler, hfs, ho, updatedHook]
  · by_cases hk : (keycode == some 27 || key == some "Escape" || key == some "Esc") = true
    · by_cases hz : s.isZoomMode = true
      · simp [step, keydownHandler, hk, hz, updatedHook]
      · simp at hz
        simp [step, keydownHandler, hk, hz, updatedHook]
    · simp at hk
      simp [step, keydownHandler, hk, updatedHook]

/-- Claim C2 witness: the amended theorem instantiated concretely — the
toggle from the Zoomed sample indeed requires the zoom flag, and the close
button from the Zoomed Fullscreen sample clears the fullscreen flag. -/
theorem C2_witness :
    sampleZoomed.isZoomMode = true ∧
    (step false sampleFull Input.closeBtnClick).state.fullScreen = false :=
  ⟨(C2_fullscreen_flag_invariants false sampleZoomed [] none none).1 rfl rfl,
   (C2_fullscreen_flag_invariants false sampleFull [] none none).2.2.1 rfl⟩

/-- Claim C3 counterexample: the step triggered by the local
fullscreen-toggle click itself — before any platform fullscreenchange
confirmation — already dispatches dw-image-fullscreen with enabled true,
alongside the platform request; and the later confirmation step dispatches
nothing (the flag is already set, so the updated hook does not fire).
Hence the notification is emitted immediately upon the local request, not
after confirmation. -/
theorem C3_counterexample :
    (step false sampleZoomed Input.fullScreenToggleClick).events
        = [Event.fullscreen "a.jpg" true] ∧
    (step false sampleZoomed Input.fullScreenToggleClick).requests
        = [FsRequest.requestFullscreen] ∧
    (step true (step false sampleZoomed Input.fullScreenToggleClick).state
        (Input.fullscreenchange true)).events = [] := by
  decide

/-- Claim C3 (amended): clicking the fullscreen-toggle control while
Zoomed Windowed issues the platform fullscreen request and dispatches
dw-image-fullscreen with enabled true immediately, in the same update
cycle as the request; when the platform fullscreenchange confirmation
later arrives, the flag is unchanged and no further notification is
emitted. -/
theorem C3_fullscreen_event_immediate (fsEl : Bool) (s : State)
    (hzoom : s.isZoomMode = true) (hdz : s.disableZoom = false)
    (hfs : s.fullScreen = false) (hfsEl : fsEl = false) :
    (step fsEl s Input.fullScreenToggleClick).events
        = [Event.fullscreen s.src true] ∧
    (step fsEl s Input.fullScreenToggleClick).requests
        = [FsRequest.requestFullscreen] ∧
    (step true (step fsEl s Input.fullScreenToggleClick).state
        (Input.fullscreenchange true)).events = [] := by
  subst hfsEl
  simp [step, zoomTemplateRendered, hzoom, hdz, hfs, fullScreenToggle,
    updatedHook, requestFullScreenCalls, fullScreenChangeHandler]

/-- Claim C3 witness: the amended theorem applied at the concrete Zoomed
Windowed sample state. -/
theorem C3_witness :
    (step false sampleZoomed Input.fullScreenToggleClick).events
        = [Event.fullscreen sampleZoomed.src true] ∧
    (step false sampleZoomed Input.fullScreenToggleClick).requests
        = [FsRequest.requestFullscreen] ∧
    (step true (step false sampleZoomed Input.fullScreenToggleClick).state
        (Input.fullscreenchange true)).events = [] :=
  C3_fullscreen_event_immediate false sampleZoomed rfl rfl rfl rfl

/-- Claim C4 counterexample: after the toggle click from the concrete
Zoomed Windowed state, with no platform confirmation having arrived, the
component state has already changed — the fullscreen flag is set — so it
is not consistent with Zoomed Windowed. -/
theorem C4_counterexample :
    (step false sampleZoomed Input.fullScreenToggleClick).state ≠ sampleZoomed ∧
    (step false sampleZoomed Input.fullScreenToggleClick).state.fullScreen = true ∧
    (step false sampleZoomed Input.fullScreenToggleClick).state.isZoomMode = true := by
  decide

/-- Claim C4 (amended): when the platform declines the fullscreen request
(no fullscreenchange ever arrives), the toggle-click step has issued
exactly one platform request (no retry) and dispatched only the
dw-image-fullscreen notification (the event vocabulary has no error
notification at all, so no error is surfaced); but the fullscreen flag was
set directly by the click, so the component is left reading Zoomed
Fullscreen, not Zoomed Windowed. -/
theorem C4_declined_request (fsEl : Bool) (s : State)
    (hzoom : s.isZoomMode = true) (hdz : s.disableZoom = false)
    (hfs : s.fullScreen = false) (hfsEl : fsEl = false) :
    (step fsEl s Input.fullScreenToggleClick).requests
        = [FsRequest.requestFullscreen] ∧
    (step fsEl s Input.fullScreenToggleClick).events
        = [Event.fullscreen s.src true] ∧
    (step fsEl s Input.fullScreenToggleClick).state.isZoomMode = true ∧
    (step fsEl s Input.fullScreenToggleClick).state.fullScreen = true ∧
    (step fsEl s Input.fullScreenToggleClick).scheduled = none := by
  subst hfsEl
  simp [step, zoomTemplateRendered, hzoom, hdz, hfs, fullScreenToggle,
    updatedHook, requestFullScreenCalls]

/-- Claim C4 witness: the amended theorem applied at the concrete Zoomed
Windowed sample state. -/
theorem C4_witness :
    (step false sampleZoomed Input.fullScreenToggleClick).requests
        = [FsRequest.requestFullscreen] ∧
    (step false sampleZoomed Input.fullScreenToggleClick).events
        = [Event.fullscreen sampleZoomed.src true] ∧
    (step false sampleZoomed Input.fullScreenToggleClick).state.isZoomMode = true ∧
    (step false sampleZoomed Input.fullScreenToggleClick).state.fullScreen = true ∧
    (step false sampleZoomed Input.fullScreenToggleClick).scheduled = none :=
  C4_declined_request false sampleZoomed rfl rfl rfl rfl

/-- Claim C5: pressing Escape (keycode 27 or key Escape or Esc) while
Zoomed Windowed transitions to Closed and dispatches exactly one closed
notification with ux ESC (the reason the spec names ESCAPE; the other two
ux values dispatched anywhere in the source are OVERLAY_CLICK and
CLOSE_BUTTON); pressing Escape while Closed dispatches nothing. -/
theorem C5_escape (fsEl : Bool) (s : State) (keycode : Option Nat)
    (key : Option String)
    (hesc : keycode = some 27 ∨ key = some "Escape" ∨ key = some "Esc") :
    (s.isZoomMode = true → s.fullScreen = false →
      (step fsEl s (Input.keydown keycode key)).state.isZoomMode = false ∧
      (step fsEl s (Input.keydown keycode key)).events
          = [Event.closed s.src "ESC"]) ∧
    (s.isZoomMode = false →
      (step fsEl s (Input.keydown keycode key)).state = s ∧
      (step fsEl s (Input.keydown keycode key)).events = []) := by
  constructor
  · intro hzoom hfs
    simp [step, keydownHandler, updatedHook, keydown_esc_cond hesc, hzoom]
  · intro hclosed
    simp [step, keydownHandler, updatedHook, keydown_esc_cond hesc, hclosed]

/-- Claim C5 witness: Escape from the concrete Zoomed Windowed sample
closes and emits the ESC notification, and from the Closed sample emits
nothing. -/
theorem C5_witness :
    ((step false sampleZoomed (Input.keydown none (some "Escape"))).state.isZoomMode
        = false ∧
     (step false sampleZoomed (Input.keydown none (some "Escape"))).events
        = [Event.closed sampleZoomed.src "ESC"]) ∧
    ((step false sampleClosed (Input.keydown none (some "Escape"))).state
        = sampleClosed ∧
     (step false sampleClosed (Input.keydown none (some "Escape"))).events = []) :=
  ⟨(C5_escape false sampleZoomed none (some "Escape")
      (Or.inr (Or.inl rfl))).1 rfl rfl,
   (C5_escape false sampleClosed none (some "Escape")
      (Or.inr (Or.inl rfl))).2 rfl⟩

/-- Claim C6: clicking the close control while Zoomed Fullscreen first
clears the fullscreen flag synchronously (the step dispatches only the
fullscreen-changed notification, no closed notification yet, and leaves
the zoom flag set), scheduling the deferred close with the 100 ms delay;
only the subsequent timeout step clears the zoom flag and dispatches
exactly one closed notification with ux CLOSE_BUTTON. -/
theorem C6_close_button_fullscreen (fsEl : Bool) (s : State)
    (hzoom : s.isZoomMode = true) (hdz : s.disableZoom = false)
    (hfs : s.fullScreen = true) :
    (step fsEl s Input.closeBtnClick).state.fullScreen = false ∧
    (step fsEl s Input.closeBtnClick).state.isZoomMode = true ∧
    (step fsEl s Input.closeBtnClick).scheduled = some 100 ∧
    (step fsEl s Input.closeBtnClick).events = [Event.fullscreen s.src false] ∧
    (step false (step fsEl s Input.closeBtnClick).state
        Input.closeTimeout).state.isZoomMode = false ∧
    (step false (step fsEl s Input.closeBtnClick).state
        Input.closeTimeout).events = [Event.closed s.src "CLOSE_BUTTON"] := by
  simp [step, zoomTemplateRendered, hzoom, hdz, hfs, closeZoomImageSync,
    closeZoomImageTimeout, updatedHook, exitFullScreenCalls]

/-- Claim C6 witness: the theorem applied at the concrete Zoomed
Fullscreen sample state. -/
theorem C6_witness :
    (step false sampleFull Input.closeBtnClick).state.fullScreen = false ∧
    (step false sampleFull Input.closeBtnClick).state.isZoomMode = true ∧
    (step false sampleFull Input.closeBtnClick).scheduled = some 100 ∧
    (step false sampleFull Input.closeBtnClick).events
        = [Event.fullscreen sampleFull.src false] ∧
    (step false (step false sampleFull Input.closeBtnClick).state
        Input.closeTimeout).state.isZoomMode = false ∧
    (step false (step false sampleFull Input.closeBtnClick).state
        Input.closeTimeout).events = [Event.closed sampleFull.src "CLOSE_BUTTON"] :=
  C6_close_button_fullscreen false sampleFull rfl rfl rfl

/-- Claim C7: while the zoom overlay is rendered, the src of the zoomed
img equals zoomSrc whenever zoomSrc is present and non-empty, and falls
back to src when zoomSrc is missing or the empty string. -/
theorem C7_zoom_src_fallback (s : State)
    (hrender : zoomTemplateRendered s = true) :
    (∀ z, s.zoomSrc = some z → z ≠ "" → zoomImageSrc s = some z) ∧
    ((s.zoomSrc = none ∨ s.zoomSrc = some "") → zoomImageSrc s = some s.src) := by
  constructor
  · intro z hz hne
    simp [zoomImageSrc, hrender, zoomSrcOrSrc, hz, hne]
  · intro hmissing
    rcases hmissing with h | h <;> simp [zoomImageSrc, hrender, zoomSrcOrSrc, h]

/-- Claim C7 witness: both branches at concrete states — a non-empty
zoomSrc is used as the zoomed src, and a missing zoomSrc falls back to
src. -/
theorem C7_witness :
    zoomImageSrc sampleZoomed = some "a_hi.jpg" ∧
    zoomImageSrc sampleZoomedNoZoomSrc = some "a.jpg" :=
  ⟨(C7_zoom_src_fallback sampleZoomed rfl).1 "a_hi.jpg" rfl (by decide),
   (C7_zoom_src_fallback sampleZoomedNoZoomSrc rfl).2 (Or.inl rfl)⟩

/-- Claim C8: clicking the inline image while Closed does nothing when
disableZoom is set (state unchanged, no notification); when disableZoom is
not set it transitions Closed to Zoomed Windowed (zoom flag set,
fullscreen flag still clear) and dispatches exactly one opened
notification carrying the image src. -/
theorem C8_inline_click (fsEl : Bool) (s : State)
    (hclosed : s.isZoomMode = false) (hfs : s.fullScreen = false) :
    (s.disableZoom = true →
      (step fsEl s Input.inlineImgClick).state = s ∧
      (step fsEl s Input.inlineImgClick).events = []) ∧
    (s.disableZoom = false →
      (step fsEl s Input.inlineImgClick).state.isZoomMode = true ∧
      (step fsEl s Input.inlineImgClick).state.fullScreen = false ∧
      (step fsEl s Input.inlineImgClick).events = [Event.opened s.src]) := by
  constructor
  · intro hdz
    simp [step, setZoomMode, hdz, updatedHook]
  · intro hdz
    simp [step, setZoomMode, hdz, hfs, updatedHook]

/-- Claim C8 witness: the theorem applied at the disabled sample (click is
inert) and at the enabled Closed sample (opens with one notification). -/
theorem C8_witness :
    ((step false sampleDisabled Input.inlineImgClick).state = sampleDisabled ∧
     (step false sampleDisabled Input.inlineImgClick).events = []) ∧
    ((step false sampleClosed Input.inlineImgClick).state.isZoomMode = true ∧
     (step false sampleClosed Input.inlineImgClick).state.fullScreen = false ∧
     (step false sampleClosed Input.inlineImgClick).events
        = [Event.opened sampleClosed.src]) :=
  ⟨(C8_inline_click false sampleDisabled rfl rfl).1 rfl,
   (C8_inline_click false sampleClosed rfl rfl).2 rfl⟩

/-- Claim C9: for a click whose propagation path contains neither the img
nor any of the three icon buttons, while Zoomed Windowed the component
transitions to Closed and dispatches one closed notification with ux
OVERLAY_CLICK; while the fullscreen flag is set the same click is a no-op
(state unchanged, nothing dispatched), because the click handler returns
immediately when the flag is set. -/
theorem C9_outside_click (fsEl : Bool) (s : State) (paths : List PathEl)
    (houtside : ∀ el ∈ paths, isZoomUIEl el = false) :
    (s.isZoomMode = true → s.fullScreen = false →
      (step fsEl s (Input.componentClick paths)).state.isZoomMode = false ∧
      (step fsEl s (Input.componentClick paths)).events
          = [Event.closed s.src "OVERLAY_CLICK"]) ∧
    (s.fullScreen = true →
      (step fsEl s (Input.componentClick paths)).state = s ∧
      (step fsEl s (Input.componentClick paths)).events = []) := by
  have ho : outsideImageClick paths = true := outsideImageClick_eq_true.2 houtside
  constructor
  · intro hzoom hfs
    simp [step, onClickHandler, hfs, ho, updatedHook]
  · intro hfs
    simp [step, onClickHandler, hfs, updatedHook]

/-- Claim C9 witness: the theorem applied with a concrete path holding a
single DIV element, at the Zoomed Windowed sample and at the Zoomed
Fullscreen sample. -/
theorem C9_witness :
    ((step false sampleZoomed
        (Input.componentClick [PathEl.mk "DIV" ""])).state.isZoomMode = false ∧
     (step false sampleZoomed
        (Input.componentClick [PathEl.mk "DIV" ""])).events
          = [Event.closed sampleZoomed.src "OVERLAY_CLICK"]) ∧
    ((step false sampleFull
        (Input.componentClick [PathEl.mk "DIV" ""])).state = sampleFull ∧
     (step false sampleFull
        (Input.componentClick [PathEl.mk "DIV" ""])).events = []) :=
  ⟨(C9_outside_click false sampleZoomed [PathEl.mk "DIV" ""]
      (by decide)).1 rfl rfl,
   (C9_outside_click false sampleFull [PathEl.mk "DIV" ""]
      (by decide)).2 rfl⟩

/-- Claim C10 (implicit): the click handler does not consult the zoom
state — an outside click while Closed with the fullscreen flag clear still
dispatches a closed notification with ux OVERLAY_CLICK (the zoom flag is
merely re-assigned false), whereas the keydown handler is guarded and
dispatches nothing from Closed on Escape. -/
theorem C10_overlay_click_while_closed (fsEl : Bool) (s : State)
    (paths : List PathEl)
    (houtside : ∀ el ∈ paths, isZoomUIEl el = false)
    (hclosed : s.isZoomMode = false) (hfs : s.fullScreen = false) :
    (step fsEl s (Input.componentClick paths)).events
        = [Event.closed s.src "OVERLAY_CLICK"] ∧
    (step fsEl s (Input.componentClick paths)).state.isZoomMode = false ∧
    (step fsEl s (Input.keydown none (some "Escape"))).events = [] := by
  have ho : outsideImageClick paths = true := outsideImageClick_eq_true.2 houtside
  refine ⟨?_, ?_, ?_⟩
  · simp [step, onClickHandler, hfs, ho, updatedHook]
  · simp [step, onClickHandler, hfs, ho, updatedHook]
  · simp [step, keydownHandler, hclosed, updatedHook]

/-- Claim C10 witness: the theorem applied at the Closed sample with a
concrete path holding a single DIV element. -/
theorem C10_witness :
    (step false sampleClosed
        (Input.componentClick [PathEl.mk "DIV" ""])).events
        = [Event.closed sampleClosed.src "OVERLAY_CLICK"] ∧
    (step false sampleClosed
        (Input.componentClick [PathEl.mk "DIV" ""])).state.isZoomMode = false ∧
    (step false sampleClosed (Input.keydown none (some "Escape"))).events = [] :=
  C10_overlay_click_while_closed false sampleClosed [PathEl.mk "DIV" ""]
    (by decide) rfl rfl

end DwImage
